import Mathlib

/-
Verification development for the sdk-proxy body-padding / signing layer
(src/apps/sdk-proxy/app/body_padding.py and session_store.py).

Bytes are modelled as `List Nat` (each entry one octet).  Python dicts for
transaction bodies are modelled by the `Body` structure: a string field whose
value is `""` models an absent or empty (falsy) key, a numeric field whose
value is `0` models an absent or zero key, mirroring the `body.get(k, d)` /
truthiness idiom of the source.  External capabilities supplied by the
`accumulate_client` SDK (digest, header encoder, data-entry encoder and hash,
merkle hash, the original fallback encoders and the original ed25519 compute)
are modelled as components of a `Caps` record, universally quantified in the
theorems.
-/

/-- Modelled from the spec (4.1 Field Encoder, external SDK helper):
unsigned varint, 7-bit groups, little-endian, high bit marks continuation.
Structural fuel recursion; 10 groups cover the unsigned 64-bit value range
the spec bounds field values by. -/
def uvarintFuel (fuel n : Nat) : List Nat :=
  match fuel with
  | 0 => []
  | f + 1 => if n < 128 then [n] else (n % 128 + 128) :: uvarintFuel f (n / 128)

/-- Modelled from the spec: unsigned-varint byte encoding of a value. -/
def uvarint (n : Nat) : List Nat := uvarintFuel 10 n

/-- Byte view of an ASCII string (URLs and type names in this system are
ASCII, where UTF-8 bytes coincide with code points). -/
def strBytes (s : String) : List Nat := s.data.map Char.toNat

/-- Modelled from the spec (4.1): varint field, tag then value. -/
def fieldUvarint (f v : Nat) : List Nat := uvarint f ++ uvarint v

/-- Modelled from the spec (4.1): length-prefixed string field. -/
def fieldString (f : Nat) (s : String) : List Nat :=
  uvarint f ++ uvarint (strBytes s).length ++ strBytes s

/-- Modelled from the spec (4.1): length-prefixed byte-string field. -/
def fieldBytes (f : Nat) (b : List Nat) : List Nat :=
  uvarint f ++ uvarint b.length ++ b

/-- Opaque data-entry structure: kind tag plus ordered byte-strings (spec 6).
An entry of kind 0 with no items models the Python default `{}`. -/
structure DataEntry where
  kind : Nat
  items : List (List Nat)
deriving DecidableEq, Repr

/-- Account-auth operation dict: `{"type": ..., "authority": ...}`. -/
structure AuthOp where
  type : String
  authority : String
deriving DecidableEq, Repr

/-- Credit recipient dict: `{"url": ..., "amount": ...}`. -/
structure CreditRecipient where
  url : String
  amount : Nat
deriving DecidableEq, Repr

/-- Entry of an updateAllowed allow/deny list: the Python value may be an
int (used as-is) or a transaction-type name (mapped through the table). -/
inductive TxRef where
  | num (n : Nat)
  | name (s : String)
deriving DecidableEq, Repr

/-- Key-page operation dict for `_patched_encode_key_page_operation`.
`threshold = none` models an absent key (Python default 1 via
`op.get("threshold", 1)`). -/
structure KeyPageOp where
  type : String
  allow : List TxRef
  deny : List TxRef
  threshold : Option Nat
deriving DecidableEq, Repr

/-- TransactionBody dict, restricted to the keys the patched encoder reads.
`toRecipients` models the `"to"` key (`to` is reserved in Lean); `epilogue`
models the `$epilogue` key: `none` is an absent key, `some bs` carries the
bytes of the hex string (`some []` models the falsy `""`). -/
structure Body where
  type : String
  recipient : String
  entry : DataEntry
  operations : List AuthOp
  height : Nat
  toRecipients : List CreditRecipient
  amount : Nat
  epilogue : Option (List Nat)
deriving DecidableEq, Repr

/-- Body with every key absent; concrete bodies update the relevant keys. -/
def baseBody : Body :=
  { type := "", recipient := "", entry := ⟨0, []⟩, operations := [],
    height := 0, toRecipients := [], amount := 0, epilogue := none }

/-- Keypair as seen by the signing entry point.  `accSigType = none` models
a key object without the `_acc_sig_type` attribute (the SDK's plain ed25519
keypair); `pubKey` and `sign` model the normalised accessors of
`AlgoKeypair` in session_store.py. -/
structure Keypair where
  pubKey : List Nat
  sign : List Nat → List Nat
  accSigType : Option Nat
  accSigStr : String

/-- External capabilities: the SDK functions body_padding.py imports from
`accumulate_client.convenience`, the digest, and the clock.  These are not
under src/, so they are left abstract and quantified in the theorems. -/
structure Caps where
  sha256 : List Nat → List Nat
  encodeDataEntry : DataEntry → List Nat
  dataEntryHash : DataEntry → List Nat
  merkleHash : List (List Nat) → List Nat
  encodeTxHeader : String → List Nat → Option String → List Nat
  origEncodeTxBody : Body → List Nat
  origWriteDataBodyHash : Body → List Nat
  origEncodeKeyPageOperation : KeyPageOp → List Nat
  nowMicros : Nat

/-- `_ACCOUNT_AUTH_OP_TYPE_MAP.get(t, 0)`: frontend operation names to Go
enum values, 0 for unrecognized names. -/
def accountAuthOpType (s : String) : Nat :=
  if s = "enable" then 1
  else if s = "disable" then 2
  else if s = "addAuthority" then 3
  else if s = "add" then 3
  else if s = "removeAuthority" then 4
  else if s = "remove" then 4
  else 0

/-- `_encode_account_auth_operation`: field 1 = type enum (skipped when the
lookup yields 0), field 2 = authority URL (skipped when falsy). -/
def encodeAccountAuthOperation (op : AuthOp) : List Nat :=
  (if accountAuthOpType op.type ≠ 0
     then fieldUvarint 1 (accountAuthOpType op.type) else [])
  ++ (if op.authority ≠ "" then fieldString 2 op.authority else [])

/-- Branch-selected body encoding of `_patched_encode_tx_body`, before the
epilogue is appended. -/
def encodeTxBodyCore (caps : Caps) (body : Body) : List Nat :=
  if body.type = "writeDataTo" then
    fieldUvarint 1 6
    ++ (if body.recipient ≠ "" then fieldString 2 body.recipient else [])
    ++ (if caps.encodeDataEntry body.entry ≠ []
          then fieldBytes 3 (caps.encodeDataEntry body.entry) else [])
  else if body.type = "updateAccountAuth" then
    fieldUvarint 1 21
    ++ (body.operations.map (fun op =>
          if encodeAccountAuthOperation op ≠ []
            then fieldBytes 2 (encodeAccountAuthOperation op) else [])).flatten
  else if body.type = "lockAccount" then
    fieldUvarint 1 16
    ++ (if body.height ≠ 0 then fieldUvarint 2 body.height else [])
  else if body.type = "transferCredits" then
    fieldUvarint 1 18
    ++ (body.toRecipients.map (fun r =>
          let rp := (if r.url ≠ "" then fieldString 1 r.url else [])
                 ++ (if r.amount ≠ 0 then fieldUvarint 2 r.amount else [])
          if rp ≠ [] then fieldBytes 2 rp else [])).flatten
  else if body.type = "burnCredits" then
    fieldUvarint 1 17
    ++ (if body.amount ≠ 0 then fieldUvarint 2 body.amount else [])
  else
    caps.origEncodeTxBody body

/-- `_patched_encode_tx_body`: encode the body, then append the `$epilogue`
bytes when that key is present and truthy. -/
def encodeTxBody (caps : Caps) (body : Body) : List Nat :=
  match body.epilogue with
  | some e => if e = [] then encodeTxBodyCore caps body
              else encodeTxBodyCore caps body ++ e
  | none => encodeTxBodyCore caps body

/-- `_patched_write_data_body_hash`: writeData delegates to the SDK original;
writeDataTo marshals type + recipient (the entry and the epilogue are not
included), hashes it, and merkle-combines with the entry hash. -/
def writeDataBodyHash (caps : Caps) (body : Body) : List Nat :=
  if body.type ≠ "writeDataTo" then caps.origWriteDataBodyHash body
  else
    caps.merkleHash
      [caps.sha256
         (fieldUvarint 1 6
          ++ (if body.recipient ≠ "" then fieldString 2 body.recipient else [])),
       caps.dataEntryHash body.entry]

/-- Binary signature metadata of `_compute_non_ed25519`: field 1 = type tag,
field 2 = public key, field 3 (signature) skipped, field 4 = signer URL,
field 5 = signer version when nonzero, field 6 = timestamp when nonzero. -/
def sigMetadataBytes (tag : Nat) (pub : List Nat) (signerUrl : String)
    (signerVersion ts : Nat) : List Nat :=
  fieldUvarint 1 tag ++ fieldBytes 2 pub ++ fieldString 4 signerUrl
  ++ (if signerVersion ≠ 0 then fieldUvarint 5 signerVersion else [])
  ++ (if ts ≠ 0 then fieldUvarint 6 ts else [])

/-- Lower-case hex digit of a value below 16. -/
def hexDigit (n : Nat) : Char :=
  if n < 10 then Char.ofNat (48 + n) else Char.ofNat (87 + n)

/-- Python `bytes.hex()`: two lower-case hex digits per byte. -/
def bytesToHex (l : List Nat) : String :=
  String.mk ((l.map (fun b => [hexDigit (b / 16 % 16), hexDigit (b % 16)])).flatten)

/-- Transaction header dict of the assembled envelope. -/
structure TxHeader where
  principal : String
  initiator : String
  memo : Option String
deriving DecidableEq, Repr

/-- Transaction dict of the assembled envelope. -/
structure Txn where
  header : TxHeader
  body : Body
deriving DecidableEq, Repr

/-- Signature dict of the assembled envelope. -/
structure SigRec where
  type : String
  publicKey : String
  signature : String
  signer : String
  signerVersion : Nat
  timestamp : Nat
deriving DecidableEq, Repr

/-- Envelope dict returned by the signing flows. -/
structure Envelope where
  transaction : List Txn
  signatures : List SigRec
deriving DecidableEq, Repr

/-- Signing flow of `_compute_non_ed25519`, with the signature type number,
type name, public key and signing function lifted to parameters (the source
reads them from the keypair).  Step numbering follows the source comments:
metadata, initiator, header, body, tx hash (merkle path for the data-write
kinds), signing preimage, signature, envelope. -/
def genericFlow (caps : Caps) (tagNum : Nat) (tagStr : String)
    (pub : List Nat) (sg : List Nat → List Nat)
    (principal : String) (body : Body) (signerUrl : String)
    (signerVersion : Nat) (memo : Option String) (timestamp : Option Nat) :
    Envelope × Nat :=
  let ts := timestamp.getD caps.nowMicros
  let md := sigMetadataBytes tagNum pub signerUrl signerVersion ts
  let initiator := caps.sha256 md
  let headerBinary := caps.encodeTxHeader principal initiator memo
  let bodyBinary := encodeTxBody caps body
  let headerHash := caps.sha256 headerBinary
  let bodyHash :=
    if body.type = "writeData" ∨ body.type = "writeDataTo"
      then writeDataBodyHash caps body
      else caps.sha256 bodyBinary
  let txHash := caps.sha256 (headerHash ++ bodyHash)
  let preimage := caps.sha256 (initiator ++ txHash)
  let signature := sg preimage
  (⟨[⟨⟨principal, bytesToHex initiator,
        match memo with
        | some m => if m = "" then none else some m
        | none => none⟩, body⟩],
    [⟨tagStr, bytesToHex pub, bytesToHex signature, signerUrl,
      signerVersion, ts⟩]⟩, ts)

/-- `_compute_non_ed25519`: the generic flow at the keypair's own signature
type number and name (`getD 0` models the attribute read, which the dispatch
guard guarantees is present when this path runs). -/
def computeNonEd (caps : Caps) (kp : Keypair) (principal : String)
    (body : Body) (signerUrl : String) (signerVersion : Nat)
    (memo : Option String) (timestamp : Option Nat) : Envelope × Nat :=
  genericFlow caps (kp.accSigType.getD 0) kp.accSigStr kp.pubKey kp.sign
    principal body signerUrl signerVersion memo timestamp

/-- Modelled from the spec: `_original_compute` (the SDK's pre-existing
`_compute_tx_hash_and_sign`) is not under src/.  Per the spec's dispatch
rule the field layout is identical across all four algorithms, so the native
ed25519 flow is the parameterised flow at tag 2, name "ed25519"; after the
monkey-patch it uses the patched body and key-page encoders, which this
model reflects through `encodeTxBody`. -/
def origCompute (caps : Caps) (kp : Keypair) (principal : String)
    (body : Body) (signerUrl : String) (signerVersion : Nat)
    (memo : Option String) (timestamp : Option Nat) : Envelope × Nat :=
  genericFlow caps 2 "ed25519" kp.pubKey kp.sign
    principal body signerUrl signerVersion memo timestamp

/-- Padding step of `_patched_compute`: trial-encode the body (epilogue
included, as in the source) and, when the result is exactly 64 bytes, set
`$epilogue` to the hex string "00", i.e. the byte 0x00. -/
def padStep (caps : Caps) (body : Body) : Body :=
  if (encodeTxBody caps body).length = 64
    then { body with epilogue := some [0] }
    else body

/-- Duck-typed dispatch test of `_patched_compute`:
`not hasattr(keypair, '_acc_sig_type') or keypair._acc_sig_type == 2`. -/
def isEd25519 (kp : Keypair) : Bool :=
  match kp.accSigType with
  | none => true
  | some t => t == 2

/-- `_patched_compute`: pad 64-byte bodies (for every algorithm), then
dispatch on the keypair's signature type.  The first component is the body
after the call, modelling the in-place mutation of the caller's dict. -/
def patchedCompute (caps : Caps) (kp : Keypair) (principal : String)
    (body : Body) (signerUrl : String) (signerVersion : Nat)
    (memo : Option String) (timestamp : Option Nat) :
    Body × (Envelope × Nat) :=
  let body2 := padStep caps body
  if isEd25519 kp then
    (body2, origCompute caps kp principal body2 signerUrl signerVersion memo timestamp)
  else
    (body2, computeNonEd caps kp principal body2 signerUrl signerVersion memo timestamp)

/-- `_TX_TYPE_NAME_MAP.get(s, 0)`: transaction type name to enum value. -/
def txTypeNameVal (s : String) : Nat :=
  if s = "createIdentity" then 1 else if s = "createTokenAccount" then 2
  else if s = "sendTokens" then 3 else if s = "createDataAccount" then 4
  else if s = "writeData" then 5 else if s = "writeDataTo" then 6
  else if s = "acmeFaucet" then 7 else if s = "createToken" then 8
  else if s = "issueTokens" then 9 else if s = "burnTokens" then 10
  else if s = "createLiteTokenAccount" then 11
  else if s = "createKeyPage" then 12 else if s = "createKeyBook" then 13
  else if s = "addCredits" then 14 else if s = "updateKeyPage" then 15
  else if s = "lockAccount" then 16 else if s = "burnCredits" then 17
  else if s = "transferCredits" then 18 else if s = "updateAccountAuth" then 21
  else if s = "updateKey" then 22 else 0

/-- Value of an updateAllowed list entry: ints pass through, names are
looked up (0 when unrecognized). -/
def txRefVal (r : TxRef) : Nat :=
  match r with
  | .num n => n
  | .name s => txTypeNameVal s

/-- `_patched_encode_key_page_operation`: adds updateAllowed (5),
setRejectThreshold (6) and setResponseThreshold (7); other types delegate
to the SDK original.  Allow/deny entries whose value is 0 are skipped. -/
def encodeKeyPageOperation (caps : Caps) (op : KeyPageOp) : List Nat :=
  if op.type = "updateAllowed" then
    fieldUvarint 1 5
    ++ (op.allow.map (fun r =>
          if txRefVal r ≠ 0 then fieldUvarint 2 (txRefVal r) else [])).flatten
    ++ (op.deny.map (fun r =>
          if txRefVal r ≠ 0 then fieldUvarint 3 (txRefVal r) else [])).flatten
  else if op.type = "setRejectThreshold" then
    fieldUvarint 1 6 ++ fieldUvarint 2 (op.threshold.getD 1)
  else if op.type = "setResponseThreshold" then
    fieldUvarint 1 7 ++ fieldUvarint 2 (op.threshold.getD 1)
  else
    caps.origEncodeKeyPageOperation op

/-- SessionStore state: the `_sessions` dict as a map from session id to
the stored keypair. -/
abbrev SessionStore := String → Option Keypair

/-- Store with no sessions (the initial `{}`). -/
def SessionStore.empty : SessionStore := fun _ => none

/-- `SessionStore.store`: `self._sessions[session_id] = keypair`. -/
def SessionStore.store (σ : SessionStore) (sessionId : String)
    (keypair : Keypair) : SessionStore :=
  fun x => if x = sessionId then some keypair else σ x

/-- `SessionStore.get`: `self._sessions.get(session_id)`. -/
def SessionStore.get (σ : SessionStore) (sessionId : String) : Option Keypair :=
  σ sessionId

/-- `SessionStore.remove`: `self._sessions.pop(session_id, None)`, which
never raises. -/
def SessionStore.remove (σ : SessionStore) (sessionId : String) : SessionStore :=
  fun x => if x = sessionId then none else σ x

/-- `SessionStore.has`: `session_id in self._sessions`. -/
def SessionStore.has (σ : SessionStore) (sessionId : String) : Bool :=
  (σ sessionId).isSome

/-- Concrete capability instance used to evaluate closed statements: the
digest is the identity, the delegate encoders return fixed bytes. -/
def trivCaps : Caps :=
  { sha256 := fun l => l,
    encodeDataEntry := fun e => e.items.flatten,
    dataEntryHash := fun e => [e.kind],
    merkleHash := fun l => l.flatten,
    encodeTxHeader := fun _ i _ => i,
    origEncodeTxBody := fun _ => [],
    origWriteDataBodyHash := fun _ => [],
    origEncodeKeyPageOperation := fun _ => [],
    nowMicros := 1234 }

/-- Concrete rcd1 keypair (tag 3) whose signing function is the identity. -/
def kpRcd1 : Keypair :=
  { pubKey := [7, 7], sign := fun l => l, accSigType := some 3, accSigStr := "rcd1" }

/-- Concrete keypair for the ed25519 dispatch path (tag 2). -/
def kpEd : Keypair :=
  { pubKey := [9], sign := fun l => l, accSigType := some 2, accSigStr := "ed25519" }

/-- Recipient URL of 58 characters, sized so that a single-recipient
transferCredits body encodes to exactly 64 bytes. -/
def url58 : String := String.mk ('a' :: 'c' :: 'c' :: ':' :: '/' :: '/' :: List.replicate 52 'a')

/-- transferCredits body with no epilogue whose encoding is 64 bytes. -/
def body64 : Body :=
  { baseBody with type := "transferCredits", toRecipients := [⟨url58, 0⟩] }

/-- Body whose epilogue-free encoding is 64 bytes but which already carries
a one-byte epilogue 0xff. -/
def body64ff : Body := { body64 with epilogue := some [255] }

/-- transferCredits body of the spec's concrete scenario. -/
def scenarioTransfer : Body :=
  { baseBody with type := "transferCredits",
                  toRecipients := [⟨"acc://a", 5⟩, ⟨"acc://b", 0⟩] }

/-- updateAccountAuth body of the spec's concrete scenario. -/
def scenarioAuth : Body :=
  { baseBody with type := "updateAccountAuth",
                  operations := [⟨"add", "acc://x/book"⟩] }

/-- Concrete writeDataTo body with a recipient and a nonempty entry. -/
def bodyWdto : Body :=
  { baseBody with type := "writeDataTo", recipient := "acc://r",
                  entry := ⟨2, [[1, 2, 3]]⟩ }

/-- updateAccountAuth body whose single operation has an unrecognized type. -/
def bodyBadAuth : Body :=
  { baseBody with type := "updateAccountAuth",
                  operations := [⟨"frobnicate", "acc://x/book"⟩] }

/-
Helper lemmas shared by the claim theorems.
-/

/-- Varint encodings are never empty. -/
theorem uvarint_ne_nil (n : Nat) : uvarint n ≠ [] := by
  unfold uvarint uvarintFuel
  split <;> simp

/-- Encoded varint fields are never empty. -/
theorem fieldUvarint_ne_nil (f v : Nat) : fieldUvarint f v ≠ [] := by
  unfold fieldUvarint
  simp [List.append_eq_nil, uvarint_ne_nil]

/-- Encoded string fields are never empty, even for the empty string. -/
theorem fieldString_ne_nil (f : Nat) (s : String) : fieldString f s ≠ [] := by
  unfold fieldString
  simp [List.append_eq_nil, uvarint_ne_nil]

/-- Patched body encoding is the branch encoding followed by the epilogue
bytes (empty when the key is absent or falsy). -/
theorem encodeTxBody_eq (caps : Caps) (b : Body) :
    encodeTxBody caps b = encodeTxBodyCore caps b ++ b.epilogue.getD [] := by
  unfold encodeTxBody
  cases h : b.epilogue with
  | none => simp
  | some e => by_cases he : e = [] <;> simp [he]

/-- Branch encoding ignores the epilogue field, provided the delegate
encoder (reached only in the fallback branch) does. -/
theorem encodeTxBodyCore_set_epilogue (caps : Caps) (b : Body) (e : Option (List Nat))
    (horig : caps.origEncodeTxBody { b with epilogue := e } = caps.origEncodeTxBody b) :
    encodeTxBodyCore caps { b with epilogue := e } = encodeTxBodyCore caps b := by
  cases b
  unfold encodeTxBodyCore
  split_ifs <;> first | rfl | exact horig

/-- Body returned by the patched entry point is the padded body. -/
theorem patchedCompute_body (caps : Caps) (kp : Keypair) (p : String) (b : Body)
    (su : String) (sv : Nat) (m : Option String) (t : Option Nat) :
    (patchedCompute caps kp p b su sv m t).1 = padStep caps b := by
  unfold patchedCompute
  split <;> rfl

/-- Encoding law for transferCredits bodies without epilogue whose
recipients all carry a url. -/
theorem transferCreditsEncoding (caps : Caps) (b : Body)
    (hty : b.type = "transferCredits") (hep : b.epilogue = none)
    (hurl : ∀ r ∈ b.toRecipients, r.url ≠ "") :
    encodeTxBody caps b
      = fieldUvarint 1 18
        ++ (b.toRecipients.map (fun r =>
              fieldBytes 2 (fieldString 1 r.url
                ++ (if r.amount ≠ 0 then fieldUvarint 2 r.amount else [])))).flatten := by
  rw [encodeTxBody_eq, hep]
  unfold encodeTxBodyCore
  rw [hty]
  rw [if_neg (by decide : ¬("transferCredits" = "writeDataTo")),
      if_neg (by decide : ¬("transferCredits" = "updateAccountAuth")),
      if_neg (by decide : ¬("transferCredits" = "lockAccount")),
      if_pos (rfl : "transferCredits" = "transferCredits")]
  simp only [Option.getD_none, List.append_nil]
  congr 1
  congr 1
  apply List.map_congr_left
  intro r hr
  have hu := hurl r hr
  by_cases ha : r.amount = 0 <;>
    simp [hu, ha, fieldString_ne_nil, fieldUvarint_ne_nil, List.append_eq_nil]

/-- Encoding law for updateAccountAuth bodies without epilogue whose
operations all have a recognized type and a nonempty authority. -/
theorem updateAccountAuthEncoding (caps : Caps) (b : Body)
    (hty : b.type = "updateAccountAuth") (hep : b.epilogue = none)
    (hops : ∀ op ∈ b.operations, accountAuthOpType op.type ≠ 0 ∧ op.authority ≠ "") :
    encodeTxBody caps b
      = fieldUvarint 1 21
        ++ (b.operations.map (fun op =>
              fieldBytes 2 (fieldUvarint 1 (accountAuthOpType op.type)
                ++ fieldString 2 op.authority))).flatten := by
  rw [encodeTxBody_eq, hep]
  unfold encodeTxBodyCore
  rw [hty]
  rw [if_neg (by decide : ¬("updateAccountAuth" = "writeDataTo")),
      if_pos (rfl : "updateAccountAuth" = "updateAccountAuth")]
  simp only [Option.getD_none, List.append_nil]
  congr 1
  congr 1
  apply List.map_congr_left
  intro op hop
  obtain ⟨h1, h2⟩ := hops op hop
  simp [encodeAccountAuthOperation, h1, h2, fieldUvarint_ne_nil, List.append_eq_nil]

/-
Claim theorems.
-/

/-- C1, counterexample to the claim as stated: the entry point's trial
encoding includes any already-attached epilogue, not the epilogue-free
encoding the claim quantifies over.  `body64ff` has an epilogue-free
encoding of exactly 64 bytes but carries the epilogue 0xff, so its trial
encoding is 65 bytes, no padding happens, and the resulting encoding ends
in 0xff instead of the 0x00 the claim requires. -/
theorem claim_C1_cex :
    ¬ (((encodeTxBody trivCaps { body64ff with epilogue := none }).length = 64 →
          encodeTxBody trivCaps
              ((patchedCompute trivCaps kpRcd1 "p" body64ff "s" 0 none none).1)
            = encodeTxBody trivCaps { body64ff with epilogue := none } ++ [0]) ∧
        ((encodeTxBody trivCaps { body64ff with epilogue := none }).length ≠ 64 →
          encodeTxBody trivCaps
              ((patchedCompute trivCaps kpRcd1 "p" body64ff "s" 0 none none).1)
            = encodeTxBody trivCaps body64ff)) := by
  decide

/-- C1 (amended): the trial encoding taken by `_patched_compute` includes
any attached epilogue; when it is exactly 64 bytes the body's epilogue is
set to the single byte 0x00, so a body carrying no epilogue is thereafter
encoded as 65 bytes equal to its unpadded encoding followed by 0x00; for
any other trial length the body is left unchanged.  The padding step runs
before dispatch, for every keypair and body kind.  The delegate-encoder
hypothesis states that the SDK's fallback body encoder ignores the
`$epilogue` key, which only the fallback branch consults. -/
theorem claim_C1_amended (caps : Caps) (b : Body) (kp : Keypair) (p su : String)
    (sv : Nat) (m : Option String) (t : Option Nat)
    (horig : caps.origEncodeTxBody { b with epilogue := some [0] }
               = caps.origEncodeTxBody b) :
    ((encodeTxBody caps b).length = 64 →
       padStep caps b = { b with epilogue := some [0] } ∧
       (b.epilogue = none →
         encodeTxBody caps (padStep caps b) = encodeTxBody caps b ++ [0] ∧
         (encodeTxBody caps (padStep caps b)).length = 65)) ∧
    ((encodeTxBody caps b).length ≠ 64 → padStep caps b = b) ∧
    (patchedCompute caps kp p b su sv m t).1 = padStep caps b := by
  refine ⟨fun h64 => ⟨by simp [padStep, h64], fun hep => ?_⟩,
          fun hne => by simp [padStep, hne],
          patchedCompute_body caps kp p b su sv m t⟩
  have hpad : padStep caps b = { b with epilogue := some [0] } := by
    simp [padStep, h64]
  have hcore : encodeTxBodyCore caps { b with epilogue := some [0] }
      = encodeTxBodyCore caps b :=
    encodeTxBodyCore_set_epilogue caps b (some [0]) horig
  have henc : encodeTxBody caps { b with epilogue := some [0] }
      = encodeTxBodyCore caps b ++ [0] := by
    rw [encodeTxBody_eq, hcore]; rfl
  have hb : encodeTxBody caps b = encodeTxBodyCore caps b := by
    rw [encodeTxBody_eq, hep]; simp
  constructor
  · rw [hpad, henc, hb]
  · rw [hpad, henc]
    have hl : (encodeTxBodyCore caps b).length = 64 := by
      rw [← hb]; exact h64
    simp [hl]

/-- C1 witness: the amended claim evaluated on the 64-byte body `body64`
(padded to 65 bytes ending in 0x00) and on `body64ff` (trial length 65,
left unchanged). -/
theorem claim_C1_amended_witness :
    padStep trivCaps body64 = { body64 with epilogue := some [0] } ∧
    encodeTxBody trivCaps (padStep trivCaps body64)
      = encodeTxBody trivCaps body64 ++ [0] ∧
    (encodeTxBody trivCaps (padStep trivCaps body64)).length = 65 ∧
    (patchedCompute trivCaps kpRcd1 "p" body64 "s" 0 none none).1
      = padStep trivCaps body64 ∧
    padStep trivCaps body64ff = body64ff := by
  have h := claim_C1_amended trivCaps body64 kpRcd1 "p" "s" 0 none none rfl
  have h2 := claim_C1_amended trivCaps body64ff kpRcd1 "p" "s" 0 none none rfl
  exact ⟨(h.1 (by decide)).1, ((h.1 (by decide)).2 rfl).1,
         ((h.1 (by decide)).2 rfl).2, h.2.2, h2.2.1 (by decide)⟩

/-- C2 (code bug): the writeDataTo body hash re-encodes only the type and
recipient fields, so it is invariant under any change to the epilogue, and
consequently the signatures produced by the non-ed25519 flow for a
writeDataTo body are identical with and without the padding byte — the
epilogue is NOT covered by the body hash, contradicting the claim and the
module's own stated purpose of keeping the Python hash computation in
agreement with the reference encoding of the padded body. -/
theorem claim_C2_code_bug (caps : Caps) (b : Body) (e : Option (List Nat))
    (h : b.type = "writeDataTo") (kp : Keypair) (p su : String) (sv : Nat)
    (m : Option String) (t : Option Nat) :
    writeDataBodyHash caps { b with epilogue := e } = writeDataBodyHash caps b ∧
    (computeNonEd caps kp p { b with epilogue := e } su sv m t).1.signatures
      = (computeNonEd caps kp p b su sv m t).1.signatures := by
  obtain ⟨ty, r, en, ops, hh, tos, amt, ep⟩ := b
  replace h : ty = "writeDataTo" := h
  subst h
  exact ⟨rfl, rfl⟩

/-- C2 witness: the invariance evaluated on a concrete writeDataTo body and
the padding epilogue 0x00. -/
theorem claim_C2_code_bug_witness :
    writeDataBodyHash trivCaps { bodyWdto with epilogue := some [0] }
      = writeDataBodyHash trivCaps bodyWdto ∧
    (computeNonEd trivCaps kpRcd1 "p" { bodyWdto with epilogue := some [0] }
        "s" 0 none none).1.signatures
      = (computeNonEd trivCaps kpRcd1 "p" bodyWdto "s" 0 none none).1.signatures :=
  claim_C2_code_bug trivCaps bodyWdto (some [0]) rfl kpRcd1 "p" "s" 0 none none

/-- C3: for a keypair with one of the non-native tags 3, 8 or 10, the
signing flow composes exactly as claimed: initiator = digest(metadata),
header hash = digest(header bound to that initiator), body hash =
digest(encoded body) for non-data-write kinds and the data-write hash
(two-leaf merkle combination) for writeData/writeDataTo, transaction hash
= digest(header hash ++ body hash), signing preimage = digest(initiator ++
transaction hash), and the emitted signature is sign applied to that
preimage.  The digest is the externally bound SHA-256 capability. -/
theorem claim_C3 (caps : Caps) (kp : Keypair) (tag : Nat)
    (htag : kp.accSigType = some tag) (_htags : tag = 3 ∨ tag = 8 ∨ tag = 10)
    (p : String) (b : Body) (su : String) (sv : Nat) (m : Option String)
    (t : Option Nat) :
    (computeNonEd caps kp p b su sv m t).2 = t.getD caps.nowMicros ∧
    (computeNonEd caps kp p b su sv m t).1.signatures =
      [⟨kp.accSigStr, bytesToHex kp.pubKey,
        bytesToHex (kp.sign (caps.sha256 (
          caps.sha256 (sigMetadataBytes tag kp.pubKey su sv (t.getD caps.nowMicros))
          ++ caps.sha256 (
               caps.sha256 (caps.encodeTxHeader p
                 (caps.sha256 (sigMetadataBytes tag kp.pubKey su sv
                    (t.getD caps.nowMicros))) m)
               ++ (if b.type = "writeData" ∨ b.type = "writeDataTo"
                     then writeDataBodyHash caps b
                     else caps.sha256 (encodeTxBody caps b)))))),
        su, sv, t.getD caps.nowMicros⟩] ∧
    (computeNonEd caps kp p b su sv m t).1.transaction =
      [⟨⟨p, bytesToHex (caps.sha256 (sigMetadataBytes tag kp.pubKey su sv
            (t.getD caps.nowMicros))),
         match m with
         | some mm => if mm = "" then none else some mm
         | none => none⟩, b⟩] := by
  simp [computeNonEd, genericFlow, htag]

/-- C3 witness: the flow equations evaluated for the rcd1 keypair (tag 3)
on a concrete non-data-write body with an explicit timestamp. -/
theorem claim_C3_witness :
    (computeNonEd trivCaps kpRcd1 "p" scenarioTransfer "s" 1 none (some 9)).2 = 9 ∧
    (computeNonEd trivCaps kpRcd1 "p" scenarioTransfer "s" 1 none (some 9)).1.signatures =
      [⟨"rcd1", bytesToHex [7, 7],
        bytesToHex (kpRcd1.sign (trivCaps.sha256 (
          trivCaps.sha256 (sigMetadataBytes 3 [7, 7] "s" 1 9)
          ++ trivCaps.sha256 (
               trivCaps.sha256 (trivCaps.encodeTxHeader "p"
                 (trivCaps.sha256 (sigMetadataBytes 3 [7, 7] "s" 1 9)) none)
               ++ trivCaps.sha256 (encodeTxBody trivCaps scenarioTransfer))))),
        "s", 1, 9⟩] ∧
    (computeNonEd trivCaps kpRcd1 "p" scenarioTransfer "s" 1 none (some 9)).1.transaction =
      [⟨⟨"p", bytesToHex (trivCaps.sha256 (sigMetadataBytes 3 [7, 7] "s" 1 9)),
         none⟩, scenarioTransfer⟩] :=
  claim_C3 trivCaps kpRcd1 3 rfl (Or.inl rfl) "p" scenarioTransfer "s" 1 none (some 9)

/-- C4: the signature metadata consists exactly of field 1 = algorithm tag,
field 2 = raw public key, field 4 = signer URL, field 5 = signer version
(omitted when zero) and field 6 = timestamp (omitted when zero); no field 3
appears; the flow returns the caller's timestamp when supplied, and the
clock's current microsecond value when not, and binds the envelope's
initiator to the digest of exactly that metadata. -/
theorem claim_C4 (caps : Caps) (kp : Keypair) (tag : Nat)
    (htag : kp.accSigType = some tag) (p : String) (b : Body) (su : String)
    (sv : Nat) (m : Option String) (pub : List Nat) (ver ts0 t0 : Nat) :
    sigMetadataBytes tag pub su ver ts0
      = fieldUvarint 1 tag ++ fieldBytes 2 pub ++ fieldString 4 su
        ++ (if ver ≠ 0 then fieldUvarint 5 ver else [])
        ++ (if ts0 ≠ 0 then fieldUvarint 6 ts0 else []) ∧
    (computeNonEd caps kp p b su sv m (some t0)).2 = t0 ∧
    (computeNonEd caps kp p b su sv m none).2 = caps.nowMicros ∧
    (computeNonEd caps kp p b su sv m none).1.signatures.map SigRec.timestamp
      = [caps.nowMicros] ∧
    (computeNonEd caps kp p b su sv m none).1.transaction
      = [⟨⟨p, bytesToHex (caps.sha256 (sigMetadataBytes tag kp.pubKey su sv
              caps.nowMicros)),
          match m with
          | some mm => if mm = "" then none else some mm
          | none => none⟩, b⟩] := by
  refine ⟨rfl, rfl, rfl, ?_, ?_⟩ <;> simp [computeNonEd, genericFlow, htag]

/-- C4 witness: the metadata layout and timestamp default evaluated for the
rcd1 keypair on a concrete body. -/
theorem claim_C4_witness :
    sigMetadataBytes 3 [7, 7] "s" 1 9
      = fieldUvarint 1 3 ++ fieldBytes 2 [7, 7] ++ fieldString 4 "s"
        ++ (if (1 : Nat) ≠ 0 then fieldUvarint 5 1 else [])
        ++ (if (9 : Nat) ≠ 0 then fieldUvarint 6 9 else []) ∧
    (computeNonEd trivCaps kpRcd1 "p" scenarioTransfer "s" 1 none (some 9)).2 = 9 ∧
    (computeNonEd trivCaps kpRcd1 "p" scenarioTransfer "s" 1 none none).2
      = trivCaps.nowMicros ∧
    (computeNonEd trivCaps kpRcd1 "p" scenarioTransfer "s" 1 none none).1.signatures.map
        SigRec.timestamp
      = [trivCaps.nowMicros] ∧
    (computeNonEd trivCaps kpRcd1 "p" scenarioTransfer "s" 1 none none).1.transaction
      = [⟨⟨"p", bytesToHex (trivCaps.sha256 (sigMetadataBytes 3 [7, 7] "s" 1
              trivCaps.nowMicros)), none⟩, scenarioTransfer⟩] :=
  claim_C4 trivCaps kpRcd1 3 rfl "p" scenarioTransfer "s" 1 none [7, 7] 1 9 9

/-- C5: dispatch and parameterisation.  A keypair without the signature-type
attribute, or with tag 2, is routed to the original compute applied to the
same arguments with the padded body; a keypair with any other tag is routed
to the non-ed25519 flow on the padded body, which is the single
parameterised flow instantiated at the keypair's tag and name; the
(spec-modelled) original ed25519 compute is the same parameterised flow at
tag 2 and name "ed25519"; the metadata of two instantiations share their
entire tail after the field-1 tag, so the layouts differ only in the tag
value; and the envelope's signature type name is exactly the name
parameter. -/
theorem claim_C5 (caps : Caps) (kpE kpN : Keypair) (tag : Nat)
    (hE : kpE.accSigType = none ∨ kpE.accSigType = some 2)
    (hN : kpN.accSigType = some tag) (h2 : tag ≠ 2)
    (p : String) (b : Body) (su : String) (sv : Nat) (m : Option String)
    (t : Option Nat) (t₁ t₂ : Nat) (pub : List Nat) (su' : String)
    (sv' ts' : Nat) (tagN : Nat) (tagS : String) (sg : List Nat → List Nat) :
    patchedCompute caps kpE p b su sv m t
      = (padStep caps b, origCompute caps kpE p (padStep caps b) su sv m t) ∧
    patchedCompute caps kpN p b su sv m t
      = (padStep caps b, computeNonEd caps kpN p (padStep caps b) su sv m t) ∧
    computeNonEd caps kpN p (padStep caps b) su sv m t
      = genericFlow caps tag kpN.accSigStr kpN.pubKey kpN.sign p
          (padStep caps b) su sv m t ∧
    origCompute caps kpE p b su sv m t
      = genericFlow caps 2 "ed25519" kpE.pubKey kpE.sign p b su sv m t ∧
    (sigMetadataBytes t₁ pub su' sv' ts').drop (fieldUvarint 1 t₁).length
      = (sigMetadataBytes t₂ pub su' sv' ts').drop (fieldUvarint 1 t₂).length ∧
    (sigMetadataBytes t₁ pub su' sv' ts').take (fieldUvarint 1 t₁).length
      = fieldUvarint 1 t₁ ∧
    ((genericFlow caps tagN tagS pub sg p b su sv m t).1.signatures.map
       (fun s => s.type)) = [tagS] := by
  refine ⟨?_, ?_, by simp [computeNonEd, hN], rfl, ?_, ?_, rfl⟩
  · rcases hE with h | h <;> simp [patchedCompute, isEd25519, h]
  · simp [patchedCompute, isEd25519, hN, h2]
  · unfold sigMetadataBytes
    simp only [List.append_assoc]
    rw [List.drop_left, List.drop_left]
  · unfold sigMetadataBytes
    simp only [List.append_assoc]
    rw [List.take_left]

/-- C5 witness: dispatch evaluated for the ed25519 keypair and the rcd1
keypair on the 64-byte body, and the layout facts at tags 3 and 10. -/
theorem claim_C5_witness :
    patchedCompute trivCaps kpEd "p" body64 "s" 0 none none
      = (padStep trivCaps body64,
         origCompute trivCaps kpEd "p" (padStep trivCaps body64) "s" 0 none none) ∧
    patchedCompute trivCaps kpRcd1 "p" body64 "s" 0 none none
      = (padStep trivCaps body64,
         computeNonEd trivCaps kpRcd1 "p" (padStep trivCaps body64) "s" 0 none none) ∧
    computeNonEd trivCaps kpRcd1 "p" (padStep trivCaps body64) "s" 0 none none
      = genericFlow trivCaps 3 "rcd1" [7, 7] kpRcd1.sign "p"
          (padStep trivCaps body64) "s" 0 none none ∧
    origCompute trivCaps kpEd "p" body64 "s" 0 none none
      = genericFlow trivCaps 2 "ed25519" [9] kpEd.sign "p" body64 "s" 0 none none ∧
    (sigMetadataBytes 3 [7, 7] "s" 1 9).drop (fieldUvarint 1 3).length
      = (sigMetadataBytes 10 [7, 7] "s" 1 9).drop (fieldUvarint 1 10).length ∧
    (sigMetadataBytes 3 [7, 7] "s" 1 9).take (fieldUvarint 1 3).length
      = fieldUvarint 1 3 ∧
    ((genericFlow trivCaps 8 "btc" [7, 7] kpRcd1.sign "p" body64 "s" 0
        none none).1.signatures.map (fun s => s.type)) = ["btc"] :=
  claim_C5 trivCaps kpEd kpRcd1 3 (Or.inr rfl) rfl (by decide) "p" body64 "s" 0
    none none 3 10 [7, 7] "s" 1 9 8 "btc" kpRcd1.sign

/-- C6: a transferCredits body (carrying no epilogue, each recipient with a
url) encodes as field 1 = uvarint 18 followed by one field-2 bytes entry
per recipient in input order, each a nested encoding of field 1 = url and
field 2 = amount omitted when zero; the claim's concrete scenario with
recipients acc://a amount 5 and acc://b amount 0 encodes two nested
entries, the second containing only the url sub-field. -/
theorem claim_C6 (caps : Caps) (b : Body)
    (hty : b.type = "transferCredits") (hep : b.epilogue = none)
    (hurl : ∀ r ∈ b.toRecipients, r.url ≠ "") :
    encodeTxBody caps b
      = fieldUvarint 1 18
        ++ (b.toRecipients.map (fun r =>
              fieldBytes 2 (fieldString 1 r.url
                ++ (if r.amount ≠ 0 then fieldUvarint 2 r.amount else [])))).flatten ∧
    encodeTxBody caps scenarioTransfer
      = fieldUvarint 1 18
        ++ fieldBytes 2 (fieldString 1 "acc://a" ++ fieldUvarint 2 5)
        ++ fieldBytes 2 (fieldString 1 "acc://b") := by
  refine ⟨transferCreditsEncoding caps b hty hep hurl, ?_⟩
  rw [transferCreditsEncoding caps scenarioTransfer (by decide) (by decide)
        (by decide)]
  decide

/-- C6 witness: the scenario part of the claim evaluated concretely. -/
theorem claim_C6_witness :
    encodeTxBody trivCaps scenarioTransfer
      = fieldUvarint 1 18
        ++ fieldBytes 2 (fieldString 1 "acc://a" ++ fieldUvarint 2 5)
        ++ fieldBytes 2 (fieldString 1 "acc://b") :=
  (claim_C6 trivCaps scenarioTransfer (by decide) (by decide) (by decide)).2

/-- C7: an updateAccountAuth body (carrying no epilogue, each operation with
a recognized type name and a nonempty authority) encodes as field 1 =
uvarint 21 followed by one field-2 bytes entry per operation in input
order, each a nested encoding of field 1 = operation-type enum and field 2
= authority URL; the name mapping is enable 1, disable 2, addAuthority 3,
removeAuthority 4 with shorthands add 3 and remove 4; the claim's concrete
scenario with the single operation add / acc://x/book encodes one nested
entry of varint 3 then the string. -/
theorem claim_C7 (caps : Caps) (b : Body)
    (hty : b.type = "updateAccountAuth") (hep : b.epilogue = none)
    (hops : ∀ op ∈ b.operations, accountAuthOpType op.type ≠ 0 ∧ op.authority ≠ "") :
    encodeTxBody caps b
      = fieldUvarint 1 21
        ++ (b.operations.map (fun op =>
              fieldBytes 2 (fieldUvarint 1 (accountAuthOpType op.type)
                ++ fieldString 2 op.authority))).flatten ∧
    (accountAuthOpType "enable" = 1 ∧ accountAuthOpType "disable" = 2 ∧
     accountAuthOpType "addAuthority" = 3 ∧ accountAuthOpType "removeAuthority" = 4 ∧
     accountAuthOpType "add" = 3 ∧ accountAuthOpType "remove" = 4) ∧
    encodeTxBody caps scenarioAuth
      = fieldUvarint 1 21
        ++ fieldBytes 2 (fieldUvarint 1 3 ++ fieldString 2 "acc://x/book") := by
  refine ⟨updateAccountAuthEncoding caps b hty hep hops, by decide, ?_⟩
  rw [updateAccountAuthEncoding caps scenarioAuth (by decide) (by decide)
        (by decide)]
  decide

/-- C7 witness: the scenario part of the claim evaluated concretely. -/
theorem claim_C7_witness :
    encodeTxBody trivCaps scenarioAuth
      = fieldUvarint 1 21
        ++ fieldBytes 2 (fieldUvarint 1 3 ++ fieldString 2 "acc://x/book") :=
  (claim_C7 trivCaps scenarioAuth (by decide) (by decide) (by decide)).2.2

/-- C8 (code bug): an updateAccountAuth operation with an unrecognized type
name, and an updateAllowed entry naming an unknown transaction type, are
silently elided: the encoders return a partial encoding (the remaining
fields) and signal no failure, contradicting the claim's (and the spec's)
requirement that such values surface a MalformedField-style error with no
partial encoding returned. -/
theorem claim_C8_code_bug :
    accountAuthOpType "frobnicate" = 0 ∧
    encodeAccountAuthOperation ⟨"frobnicate", "acc://x/book"⟩
      = fieldString 2 "acc://x/book" ∧
    encodeTxBody trivCaps bodyBadAuth
      = fieldUvarint 1 21 ++ fieldBytes 2 (fieldString 2 "acc://x/book") ∧
    txTypeNameVal "bogusType" = 0 ∧
    encodeKeyPageOperation trivCaps
        ⟨"updateAllowed", [TxRef.name "sendTokens", TxRef.name "bogusType"], [], none⟩
      = fieldUvarint 1 5 ++ fieldUvarint 2 3 := by
  decide

/-- C9, counterexample to the claim as stated: on a body whose trial
encoding is exactly 64 bytes the entry point inserts the `$epilogue` key
into the caller's body, so the input structure is not left unchanged. -/
theorem claim_C9_cex :
    (patchedCompute trivCaps kpRcd1 "p" body64 "s" 0 none none).1 ≠ body64 := by
  decide

/-- C9 (amended): the signing entry point mutates the caller's body only by
setting its `$epilogue` field to the byte 0x00 when the trial encoding is
64 bytes; every body is either returned unchanged or with only that field
set, and every other field (type, recipient, entry, operations, height,
recipients, amount) is always preserved. -/
theorem claim_C9_amended (caps : Caps) (kp : Keypair) (p : String) (b : Body)
    (su : String) (sv : Nat) (m : Option String) (t : Option Nat) :
    ((patchedCompute caps kp p b su sv m t).1 = b ∨
     (patchedCompute caps kp p b su sv m t).1 = { b with epilogue := some [0] }) ∧
    (patchedCompute caps kp p b su sv m t).1.type = b.type ∧
    (patchedCompute caps kp p b su sv m t).1.recipient = b.recipient ∧
    (patchedCompute caps kp p b su sv m t).1.entry = b.entry ∧
    (patchedCompute caps kp p b su sv m t).1.operations = b.operations ∧
    (patchedCompute caps kp p b su sv m t).1.height = b.height ∧
    (patchedCompute caps kp p b su sv m t).1.toRecipients = b.toRecipients ∧
    (patchedCompute caps kp p b su sv m t).1.amount = b.amount := by
  rw [patchedCompute_body]
  unfold padStep
  split
  · exact ⟨Or.inr rfl, rfl, rfl, rfl, rfl, rfl, rfl, rfl⟩
  · exact ⟨Or.inl rfl, rfl, rfl, rfl, rfl, rfl, rfl, rfl⟩

/-- C10: SessionStore lifecycle laws: get after store returns the stored
keypair and has is true; get after remove returns none and has is false;
remove of an absent id leaves the store unchanged (and raises nothing, as
pop with a default); and store/get/remove on one id never change the entry
held under any other id. -/
theorem claim_C10 (σ : SessionStore) (s s' : String) (k : Keypair)
    (hdiff : s' ≠ s) :
    (σ.store s k).get s = some k ∧
    (σ.store s k).has s = true ∧
    (σ.remove s).get s = none ∧
    (σ.remove s).has s = false ∧
    (σ.get s = none → σ.remove s = σ) ∧
    (σ.store s k).get s' = σ.get s' ∧
    (σ.remove s).get s' = σ.get s' := by
  refine ⟨?_, ?_, ?_, ?_, fun h => ?_, ?_, ?_⟩
  · simp [SessionStore.get, SessionStore.store]
  · simp [SessionStore.has, SessionStore.store]
  · simp [SessionStore.get, SessionStore.remove]
  · simp [SessionStore.has, SessionStore.remove]
  · funext x
    by_cases hx : x = s
    · subst hx
      simp [SessionStore.remove, SessionStore.get] at *
      exact h.symm
    · simp [SessionStore.remove, hx]
  · simp [SessionStore.get, SessionStore.store, hdiff]
  · simp [SessionStore.get, SessionStore.remove, hdiff]

/-- C10 witness: the lifecycle laws evaluated on the empty store with the
concrete ids a and b and the rcd1 keypair. -/
theorem claim_C10_witness :
    (SessionStore.empty.store "a" kpRcd1).get "a" = some kpRcd1 ∧
    (SessionStore.empty.store "a" kpRcd1).has "a" = true ∧
    (SessionStore.empty.remove "a").get "a" = none ∧
    SessionStore.empty.remove "a" = SessionStore.empty ∧
    (SessionStore.empty.store "a" kpRcd1).get "b" = SessionStore.empty.get "b" ∧
    (SessionStore.empty.remove "a").get "b" = SessionStore.empty.get "b" := by
  have h := claim_C10 SessionStore.empty "a" "b" kpRcd1 (by decide)
  exact ⟨h.1, h.2.1, h.2.2.1, h.2.2.2.2.1 rfl, h.2.2.2.2.2.1, h.2.2.2.2.2.2⟩
